import Mathlib

/-!
# Verification of the webxr session execution model

This development embeds the core session machinery of the `webxr` repository
(`webxr-api/session.rs`) in Lean: the `SessionThread` message loop
(`handle_msg`, `run`), the cooperative stepper (`run_one_frame` of
`MainThreadSession`), the `Session` handle accessors, and `SessionBuilder::spawn`.

Modelling conventions:
* Channels are explicit: the stream of messages a receiver yields is a list;
  a send onto the frame-delivery channel appends to `frame_log`.
* `time::precise_time_ns()` is a logical clock (`clock` field) that advances on
  each read that the code stores into observable state.  Time reads whose only
  use is development-only timing prints are excluded, as the design notes
  direct; the one read that matters (`wait_end`, stored into the delivered
  frame's `sent_time`) is modelled.
* The Device capability, the Frame record and the Error type are declared in
  parts of the crate that are not in `src/` (only `session.rs` is); they are
  modelled from the spec, deterministically: the Device carries the queue of
  frames its blocking `wait_for_animation_frame` will yield (empty queue =
  permanent exhaustion) and logs of its lifecycle calls.
-/

namespace WebXR

/-- Surfaces, swap-chain ids, input sources and geometric payloads are opaque
at this layer; they are represented by natural numbers. -/
abbrev SwapChainId := Nat

/-- A renderable surface (opaque at this layer). -/
abbrev Surface := Nat

/-- An event-destination sender endpoint (opaque at this layer). -/
abbrev EventDest := Nat

/-- XREnvironmentBlendMode, from `session.rs`. -/
inductive EnvironmentBlendMode where
  | Opaque
  | AlphaBlend
  | Additive
deriving DecidableEq, Repr

/-- Modelled from the spec: the crate's Error type (its defining module is not
under `src/`): communication failure, no-matching-device, and an opaque
backend-specific message. -/
inductive Error where
  | CommunicationError
  | NoMatchingDevice
  | BackendSpecific (msg : String)
deriving DecidableEq, Repr

/-- Modelled from the spec: the Frame record (its defining module is not under
`src/`): per-cycle render payload with a creation timestamp and a delivery
timestamp (`sent_time`, the field `handle_msg` assigns before forwarding).
The non-timestamp payload (viewer transform, per-input pose frames, pending
update events) is abstracted into one opaque `payload` field, which the session
core never inspects. -/
structure Frame where
  payload : Nat
  creation_time : Nat
  sent_time : Nat
deriving DecidableEq, Repr

/-- Modelled from the spec: the Device capability interface (its defining
module is not under `src/`).  Deterministic state model: `frames` is the queue
of frames successive `wait_for_animation_frame` calls will yield (empty =
permanent exhaustion); `quit_calls`, `rendered`, `clip_planes`, `event_dest`
and `quitter_set` record the lifecycle calls the session core makes. -/
structure Device where
  frames : List Frame
  quit_calls : Nat
  rendered : List Surface
  event_dest : Option EventDest
  clip_planes : List (Int × Int)
  quitter_set : Bool
  floor_transform : Option Nat
  views : Nat
  resolution : Option (Int × Int)
  initial_inputs : List Nat
  environment_blend_mode : EnvironmentBlendMode
deriving DecidableEq, Repr

/-- Device: blocking wait for the next animation frame; `none` means the frame
source is permanently exhausted. -/
def Device.wait_for_animation_frame (d : Device) : Option Frame × Device :=
  match d.frames with
  | [] => (none, d)
  | f :: rest => (some f, { d with frames := rest })

/-- Device: render step; consumes and returns ownership of a surface. -/
def Device.render_animation_frame (d : Device) (surface : Surface) :
    Surface × Device :=
  (surface, { d with rendered := d.rendered ++ [surface] })

/-- Device: quit lifecycle hook. -/
def Device.quit (d : Device) : Device :=
  { d with quit_calls := d.quit_calls + 1 }

/-- Device: set the destination for asynchronous events. -/
def Device.set_event_dest (d : Device) (dest : EventDest) : Device :=
  { d with event_dest := some dest }

/-- Device: update the clip planes. -/
def Device.update_clip_planes (d : Device) (near far : Int) : Device :=
  { d with clip_planes := d.clip_planes ++ [(near, far)] }

/-- Device: receive a Quitter capability. -/
def Device.set_quitter (d : Device) : Device :=
  { d with quitter_set := true }

/-- A swap chain: a rotating pool of renderable surfaces. -/
structure SwapChain where
  surfaces : List Surface
deriving DecidableEq, Repr

/-- Swap chain: take a surface from the pool, if one is available. -/
def SwapChain.take_surface (c : SwapChain) : Option (Surface × SwapChain) :=
  match c.surfaces with
  | [] => none
  | s :: rest => some (s, { c with surfaces := rest })

/-- Swap chain: return a surface to the pool. -/
def SwapChain.recycle_surface (c : SwapChain) (s : Surface) : SwapChain :=
  { c with surfaces := c.surfaces ++ [s] }

/-- The swap-chain registry: `get(id) -> optional swap chain`. -/
def swap_chains_get (reg : List (SwapChainId × SwapChain)) (i : SwapChainId) :
    Option SwapChain :=
  List.lookup i reg

/-- The message protocol from the content thread to the session thread,
from `session.rs`.  Clip-plane floats are opaque at this layer and carried as
integers; `RenderAnimationFrame` carries its dispatch timestamp. -/
inductive SessionMsg where
  | SetSwapChain (swap_chain_id : Option SwapChainId)
  | SetEventDest (dest : EventDest)
  | UpdateClipPlanes (near : Int) (far : Int)
  | StartRenderLoop
  | RenderAnimationFrame (sent_time : Nat)
  | Quit
deriving DecidableEq, Repr

/-- The state of a `SessionThread`, from `session.rs`.  The channel endpoints
are externalized (incoming messages are passed as lists; the frame-delivery
sender becomes the `frame_log` of frames sent so far); `clock` is the logical
time used for `time::precise_time_ns()` reads stored into observable state. -/
structure SessionThread where
  swap_chain : Option SwapChain
  swap_chains : List (SwapChainId × SwapChain)
  frame_count : Nat
  frame_log : List Frame
  running : Bool
  device : Device
  clock : Nat
deriving DecidableEq, Repr

/-- `SessionThread::handle_msg`, translated clause by clause from
`session.rs`.  Returns the `bool` the Rust method returns (`false` = stop)
together with the updated state. -/
def handle_msg (s : SessionThread) (msg : SessionMsg) :
    Bool × SessionThread :=
  match msg with
  | .SetSwapChain swap_chain_id =>
    (true, { s with
      swap_chain := swap_chain_id.bind fun i => swap_chains_get s.swap_chains i })
  | .SetEventDest dest =>
    (true, { s with device := s.device.set_event_dest dest })
  | .StartRenderLoop =>
    match s.device.wait_for_animation_frame with
    | (none, d) => (false, { s with device := d })
    | (some frame, d) =>
      (true, { s with device := d, frame_log := s.frame_log ++ [frame] })
  | .UpdateClipPlanes near far =>
    (true, { s with device := s.device.update_clip_planes near far })
  | .RenderAnimationFrame _sent_time =>
    let s1 := { s with frame_count := s.frame_count + 1 }
    let s2 :=
      match s1.swap_chain with
      | some chain =>
        match chain.take_surface with
        | some (surface, chain1) =>
          let (surface1, d1) := s1.device.render_animation_frame surface
          { s1 with device := d1
                    swap_chain := some (chain1.recycle_surface surface1) }
        | none => s1
      | none => s1
    match s2.device.wait_for_animation_frame with
    | (none, d) => (false, { s2 with device := d })
    | (some frame, d) =>
      let wait_end := s2.clock
      let s3 := { s2 with device := d
                          clock := s2.clock + 1
                          frame_log := s2.frame_log ++ [{ frame with sent_time := wait_end }] }
      (true, s3)
  | .Quit =>
    (false, { s with device := s.device.quit })

/-- `SessionThread::run`: receive and handle messages until `handle_msg`
signals stop (then set `running := false` and break), or until the channel
closes (list exhausted; `running` is left untouched, mirroring the `Err`
branch of `recv`).  Messages after the stopping one are discarded. -/
def run (s : SessionThread) : List SessionMsg → SessionThread
  | [] => s
  | msg :: rest =>
    match handle_msg s msg with
    | (true, s1) => run s1 rest
    | (false, s1) => { s1 with running := false }

/-- The loop body of `MainThreadSession::run_one_frame` for `SessionThread`.
`frame_count0` is the frame count captured on entry; the list holds the
successive results of `recv_timeout` (`none` = the bounded wait timed out).
Returns the final state and the unconsumed receive results. -/
def run_one_frame_loop (frame_count0 : Nat) (s : SessionThread) :
    List (Option SessionMsg) → SessionThread × List (Option SessionMsg)
  | [] => (s, [])
  | r :: rest =>
    if frame_count0 == s.frame_count && s.running then
      match r with
      | none => (s, rest)
      | some msg =>
        let (b, s1) := handle_msg s msg
        run_one_frame_loop frame_count0 { s1 with running := b } rest
    else (s, r :: rest)

/-- `MainThreadSession::run_one_frame` for `SessionThread`: capture the frame
count, then pop-and-handle messages with a bounded wait while the frame count
has not advanced and the session is still running. -/
def run_one_frame (s : SessionThread) (recvs : List (Option SessionMsg)) :
    SessionThread × List (Option SessionMsg) :=
  run_one_frame_loop s.frame_count s recvs

/-- `MainThreadSession::running` for `SessionThread`. -/
def running (s : SessionThread) : Bool :=
  s.running

/-- `SessionThread::new`: channel creation is externalized as `channel_ok`
(the `crate::channel().or(Err(Error::CommunicationError))?` step); hands the
device a Quitter, and starts with frame count 0, no bound swap chain, and
`running = true`. -/
def SessionThread.new (channel_ok : Bool) (device : Device)
    (swap_chains : List (SwapChainId × SwapChain)) :
    Except Error SessionThread :=
  if channel_ok then
    .ok { swap_chain := none
          swap_chains := swap_chains
          frame_count := 0
          frame_log := []
          running := true
          device := device.set_quitter
          clock := 0 }
  else .error .CommunicationError

/-- The content-side `Session` handle, from `session.rs`: locally cached
session metadata.  The message sender endpoint is externalized. -/
structure Session where
  floor_transform : Option Nat
  views : Nat
  resolution : Option (Int × Int)
  environment_blend_mode : EnvironmentBlendMode
  initial_inputs : List Nat
deriving DecidableEq, Repr

/-- `SessionThread::new_session`: snapshot the device's metadata into a
content-side handle. -/
def SessionThread.new_session (t : SessionThread) : Session :=
  { floor_transform := t.device.floor_transform
    views := t.device.views
    resolution := t.device.resolution
    environment_blend_mode := t.device.environment_blend_mode
    initial_inputs := t.device.initial_inputs }

/-- Result of a call that may panic: either a panic with its message, or a
normal return value. -/
inductive PanicOr (α : Type) where
  | panics (msg : String)
  | ok (val : α)
deriving DecidableEq, Repr

/-- `Session::recommended_framebuffer_resolution`: `expect` on the cached
optional resolution; `none` (an inline session) panics with the source's
message. -/
def Session.recommended_framebuffer_resolution (s : Session) :
    PanicOr (Int × Int) :=
  match s.resolution with
  | some r => .ok r
  | none => .panics "Inline XR sessions should not construct a framebuffer"

/-- The environment of one `SessionBuilder::spawn` call: whether the two
`crate::channel()` calls succeed (the acknowledgment channel in `spawn`, the
message channel in `SessionThread::new`), whether the acknowledgment is
delivered (`false` models the spawned closure dropping the sender without
sending, i.e. a panic before the send), and the factory's result. -/
structure SpawnEnv where
  ack_channel_ok : Bool
  thread_channel_ok : Bool
  ack_delivered : Bool
  factory_result : Except Error Device

/-- `SessionBuilder::spawn`: create the ack channel, run
`factory().and_then(SessionThread::new)` on the spawned thread, send the
result back, and on the caller side `recv().unwrap_or(Err(CommunicationError))`. -/
def spawn (env : SpawnEnv) (swap_chains : List (SwapChainId × SwapChain)) :
    Except Error Session :=
  if env.ack_channel_ok then
    let thread_result := env.factory_result.bind fun device =>
      SessionThread.new env.thread_channel_ok device swap_chains
    if env.ack_delivered then
      match thread_result with
      | .ok t => .ok t.new_session
      | .error e => .error e
    else .error .CommunicationError
  else .error .CommunicationError

/-- Is a message the Quit message? -/
def isQuit : SessionMsg → Bool
  | .Quit => true
  | _ => false

/-- Is a message a RenderAnimationFrame message? -/
def isRAF : SessionMsg → Bool
  | .RenderAnimationFrame _ => true
  | _ => false

/-- Count of RenderAnimationFrame messages in a list. -/
def countRAF (msgs : List SessionMsg) : Nat :=
  (msgs.filter isRAF).length

/-- The messages a `run` over `msgs` actually processes: the prefix up to and
including the message on which `handle_msg` signals stop (the rest is
discarded), or all of `msgs` when none does. -/
def runProcessed (s : SessionThread) : List SessionMsg → List SessionMsg
  | [] => []
  | msg :: rest =>
    match handle_msg s msg with
    | (true, s1) => msg :: runProcessed s1 rest
    | (false, _) => [msg]

/-- Whether a `run` over `msgs` exits because it processed a Quit message
(rather than by channel closure or by device frame exhaustion). -/
def runExitsQuit (s : SessionThread) : List SessionMsg → Bool
  | [] => false
  | msg :: rest =>
    match handle_msg s msg with
    | (true, s1) => runExitsQuit s1 rest
    | (false, _) => isQuit msg

/-- Whether a `run` over `msgs` exits because `handle_msg` signalled stop
(a Quit message or device frame exhaustion), as opposed to exiting by
channel closure (the message stream running out). -/
def runStops (s : SessionThread) : List SessionMsg → Bool
  | [] => false
  | msg :: rest =>
    match handle_msg s msg with
    | (true, s1) => runStops s1 rest
    | (false, _) => true

/-! ## Concrete fixtures used by witnesses and counterexamples -/

/-- A concrete frame whose device-side `sent_time` is 77. -/
def frame0 : Frame :=
  { payload := 9, creation_time := 1, sent_time := 77 }

/-- A concrete device whose frame queue is `fs`. -/
def device0 (fs : List Frame) : Device :=
  { frames := fs
    quit_calls := 0
    rendered := []
    event_dest := none
    clip_planes := []
    quitter_set := true
    floor_transform := none
    views := 4
    resolution := some (64, 64)
    initial_inputs := []
    environment_blend_mode := .Opaque }

/-- A concrete freshly-constructed session thread (the state
`SessionThread.new` produces, with the logical clock advanced to 100). -/
def thread0 (fs : List Frame) : SessionThread :=
  { swap_chain := none
    swap_chains := []
    frame_count := 0
    frame_log := []
    running := true
    device := device0 fs
    clock := 100 }

/-! ## Per-message facts about `handle_msg` -/

/-- `handle_msg` bumps the device's quit-call count exactly on Quit. -/
theorem handle_msg_quit_calls (s : SessionThread) (m : SessionMsg) :
    (handle_msg s m).2.device.quit_calls
      = s.device.quit_calls + (if isQuit m then 1 else 0) := by
  cases m with
  | StartRenderLoop =>
    cases hf : s.device.frames <;>
      simp [handle_msg, Device.wait_for_animation_frame, isQuit, hf]
  | RenderAnimationFrame t =>
    cases hsc : s.swap_chain with
    | none =>
      cases hf : s.device.frames <;>
        simp [handle_msg, Device.wait_for_animation_frame, isQuit, hsc, hf]
    | some chain =>
      cases hcs : chain.surfaces <;> cases hf : s.device.frames <;>
        simp [handle_msg, Device.wait_for_animation_frame, SwapChain.take_surface,
          SwapChain.recycle_surface, Device.render_animation_frame, isQuit,
          hsc, hcs, hf]
  | _ => rfl

/-- `handle_msg` bumps the frame counter exactly on RenderAnimationFrame. -/
theorem handle_msg_frame_count (s : SessionThread) (m : SessionMsg) :
    (handle_msg s m).2.frame_count
      = s.frame_count + (if isRAF m then 1 else 0) := by
  cases m with
  | StartRenderLoop =>
    cases hf : s.device.frames <;>
      simp [handle_msg, Device.wait_for_animation_frame, isRAF, hf]
  | RenderAnimationFrame t =>
    cases hsc : s.swap_chain with
    | none =>
      cases hf : s.device.frames <;>
        simp [handle_msg, Device.wait_for_animation_frame, isRAF, hsc, hf]
    | some chain =>
      cases hcs : chain.surfaces <;> cases hf : s.device.frames <;>
        simp [handle_msg, Device.wait_for_animation_frame, SwapChain.take_surface,
          SwapChain.recycle_surface, Device.render_animation_frame, isRAF,
          hsc, hcs, hf]
  | _ => rfl

/-- `handle_msg` itself never writes the `running` flag (only the loops do). -/
theorem handle_msg_running (s : SessionThread) (m : SessionMsg) :
    (handle_msg s m).2.running = s.running := by
  cases m with
  | StartRenderLoop =>
    cases hf : s.device.frames <;>
      simp [handle_msg, Device.wait_for_animation_frame, hf]
  | RenderAnimationFrame t =>
    cases hsc : s.swap_chain with
    | none =>
      cases hf : s.device.frames <;>
        simp [handle_msg, Device.wait_for_animation_frame, hsc, hf]
    | some chain =>
      cases hcs : chain.surfaces <;> cases hf : s.device.frames <;>
        simp [handle_msg, Device.wait_for_animation_frame, SwapChain.take_surface,
          SwapChain.recycle_surface, Device.render_animation_frame, hsc, hcs, hf]
  | _ => rfl

/-- `handle_msg` never mutates the swap-chain registry. -/
theorem handle_msg_swap_chains (s : SessionThread) (m : SessionMsg) :
    (handle_msg s m).2.swap_chains = s.swap_chains := by
  cases m with
  | StartRenderLoop =>
    cases hf : s.device.frames <;>
      simp [handle_msg, Device.wait_for_animation_frame, hf]
  | RenderAnimationFrame t =>
    cases hsc : s.swap_chain with
    | none =>
      cases hf : s.device.frames <;>
        simp [handle_msg, Device.wait_for_animation_frame, hsc, hf]
    | some chain =>
      cases hcs : chain.surfaces <;> cases hf : s.device.frames <;>
        simp [handle_msg, Device.wait_for_animation_frame, SwapChain.take_surface,
          SwapChain.recycle_surface, Device.render_animation_frame, hsc, hcs, hf]
  | _ => rfl

/-- When `handle_msg` lets the loop continue, the message was not Quit. -/
theorem handle_msg_true_not_quit (s : SessionThread) (m : SessionMsg)
    (h : (handle_msg s m).1 = true) : isQuit m = false := by
  cases m <;> simp_all [isQuit, handle_msg]

/-! ## Facts about the dedicated-thread loop `run` -/

/-- Over a whole `run`, the device's quit hook is called exactly once when the
loop exits because it processed Quit, and zero times otherwise. -/
theorem run_quit_calls (s : SessionThread) (msgs : List SessionMsg) :
    (run s msgs).device.quit_calls
      = s.device.quit_calls + (if runExitsQuit s msgs then 1 else 0) := by
  induction msgs generalizing s with
  | nil => simp [run, runExitsQuit]
  | cons m rest ih =>
    rcases hm : handle_msg s m with ⟨b, s1⟩
    have hq := handle_msg_quit_calls s m
    rw [hm] at hq
    simp only [] at hq
    cases b
    · simp [run, runExitsQuit, hm, hq]
    · have hnq : isQuit m = false :=
        handle_msg_true_not_quit s m (by rw [hm])
      simp [run, runExitsQuit, hm, ih s1, hq, hnq]

/-- If `run` exits because `handle_msg` signalled stop (Quit or exhaustion),
it has set the thread Stopped. -/
theorem run_stops_stopped (s : SessionThread) (msgs : List SessionMsg)
    (h : runStops s msgs = true) : (run s msgs).running = false := by
  induction msgs generalizing s with
  | nil => simp [runStops] at h
  | cons m rest ih =>
    rcases hm : handle_msg s m with ⟨b, s1⟩
    cases b
    · simp [run, hm]
    · rw [runStops, hm] at h
      simp only [run, hm]
      exact ih s1 h

/-- If `run` exits without `handle_msg` ever signalling stop — the
channel-closure exit — the `running` flag is left exactly as it was. -/
theorem run_no_stop_running (s : SessionThread) (msgs : List SessionMsg)
    (h : runStops s msgs = false) : (run s msgs).running = s.running := by
  induction msgs generalizing s with
  | nil => simp [run]
  | cons m rest ih =>
    rcases hm : handle_msg s m with ⟨b, s1⟩
    have hr := handle_msg_running s m
    rw [hm] at hr
    cases b
    · rw [runStops, hm] at h
      simp at h
    · rw [runStops, hm] at h
      simp only [run, hm]
      rw [ih s1 h]
      exact hr

/-- `run` never raises the `running` flag: if it ends true, it started true. -/
theorem run_running_monotone (s : SessionThread) (msgs : List SessionMsg)
    (h : (run s msgs).running = true) : s.running = true := by
  induction msgs generalizing s with
  | nil => simpa [run] using h
  | cons m rest ih =>
    rcases hm : handle_msg s m with ⟨b, s1⟩
    have hr := handle_msg_running s m
    rw [hm] at hr
    cases b
    · rw [run, hm] at h
      simp at h
    · rw [run, hm] at h
      have := ih s1 h
      rw [← hr]
      exact this

/-- The frame counter after a `run` is the starting counter plus the number of
RenderAnimationFrame messages among the messages actually processed. -/
theorem run_frame_count (s : SessionThread) (msgs : List SessionMsg) :
    (run s msgs).frame_count
      = s.frame_count + countRAF (runProcessed s msgs) := by
  induction msgs generalizing s with
  | nil => simp [run, runProcessed, countRAF]
  | cons m rest ih =>
    rcases hm : handle_msg s m with ⟨b, s1⟩
    have hf := handle_msg_frame_count s m
    rw [hm] at hf
    simp only [] at hf
    cases b
    · cases hq : isRAF m <;>
        simp [run, runProcessed, countRAF, hm, hf, hq, List.filter]
    · cases hq : isRAF m <;>
        · simp [run, runProcessed, countRAF, hm, ih s1, hf, hq, List.filter]
          try omega

/-! ## Facts about the cooperative stepper `run_one_frame` -/

/-- The cooperative loop never raises the `running` flag: if it ends true, it
started true. -/
theorem run_one_frame_loop_running (fc0 : Nat) (s : SessionThread)
    (recvs : List (Option SessionMsg))
    (h : (run_one_frame_loop fc0 s recvs).1.running = true) :
    s.running = true := by
  cases recvs with
  | nil => simpa [run_one_frame_loop] using h
  | cons r rest =>
    by_cases hg : (fc0 == s.frame_count && s.running) = true
    · exact (Bool.and_eq_true _ _).mp hg |>.2
    · simp only [run_one_frame_loop, if_neg hg] at h
      exact h

/-- When the cooperative loop returns, either the frame counter advanced past
the captured value, or the session stopped, or the bounded receive timed out
(the consumed prefix of receive results ends in a timeout), or the modelled
stream of receive results was exhausted. -/
theorem run_one_frame_loop_post (fc0 : Nat) (s : SessionThread)
    (recvs : List (Option SessionMsg)) :
    (run_one_frame_loop fc0 s recvs).1.frame_count ≠ fc0
    ∨ (run_one_frame_loop fc0 s recvs).1.running = false
    ∨ (∃ pre, recvs = pre ++ none :: (run_one_frame_loop fc0 s recvs).2)
    ∨ (run_one_frame_loop fc0 s recvs).2 = [] := by
  induction recvs generalizing s with
  | nil => right; right; right; simp [run_one_frame_loop]
  | cons r rest ih =>
    by_cases hg : (fc0 == s.frame_count && s.running) = true
    · simp only [run_one_frame_loop, if_pos hg]
      cases r with
      | none =>
        right; right; left
        exact ⟨[], by simp⟩
      | some msg =>
        rcases hm : handle_msg s msg with ⟨b, s1⟩
        simp only [hm]
        rcases ih { s1 with running := b } with h | h | ⟨pre, hpre⟩ | h
        · left; exact h
        · right; left; exact h
        · right; right; left
          exact ⟨some msg :: pre, by rw [List.cons_append, ← hpre]⟩
        · right; right; right; exact h
    · simp only [run_one_frame_loop, if_neg hg]
      rcases Bool.and_eq_false_iff.mp (Bool.eq_false_iff.mpr hg) with h | h
      · left
        intro hc
        rw [hc] at h
        simp at h
      · right; left; exact h

/-- If the session is running and the first bounded receive times out, the
cooperative loop returns immediately with the state unchanged. -/
theorem run_one_frame_timeout (s : SessionThread)
    (rest : List (Option SessionMsg)) (h : s.running = true) :
    run_one_frame s (none :: rest) = (s, rest) := by
  simp only [run_one_frame, run_one_frame_loop, if_pos (by simp [h] : (s.frame_count == s.frame_count && s.running) = true)]

/-- On a successful wait, the RenderAnimationFrame handler continues, stamps
the delivered frame's `sent_time` with the time read right after the wait
(the current clock), and advances the clock by that one read. -/
theorem handle_msg_raf_success (s : SessionThread) (t : Nat) (f : Frame)
    (rest : List Frame) (h : s.device.frames = f :: rest) :
    (handle_msg s (.RenderAnimationFrame t)).2.frame_log
      = s.frame_log ++ [{ f with sent_time := s.clock }] ∧
    (handle_msg s (.RenderAnimationFrame t)).2.clock = s.clock + 1 ∧
    (handle_msg s (.RenderAnimationFrame t)).1 = true := by
  cases hsc : s.swap_chain with
  | none => simp [handle_msg, Device.wait_for_animation_frame, hsc, h]
  | some chain =>
    cases hcs : chain.surfaces <;>
      simp [handle_msg, SwapChain.take_surface, SwapChain.recycle_surface,
        Device.render_animation_frame, Device.wait_for_animation_frame,
        hsc, hcs, h]

/-! ## The claims -/

/-- Claim C1, counterexample: a thread whose Device is already exhausted
processes StartRenderLoop; its loop exits (it is Stopped) yet the Device's
quit hook was invoked zero times — refuting that `Device.quit()` is invoked
exactly once over every lifetime, whichever path ends the loop. -/
theorem quit_not_called_on_exhaustion_exit :
    (run (thread0 []) [SessionMsg.StartRenderLoop]).running = false ∧
    (run (thread0 []) [SessionMsg.StartRenderLoop]).device.quit_calls = 0 := by
  decide

/-- Claim C1 (amended): processing a Quit message calls the Device's quit hook
and signals stop; over a whole `run` the quit hook is invoked exactly once
when the loop exits because it processed Quit — and zero times when the loop
exits by device frame exhaustion or channel closure — so never more than
once; the thread ends Stopped on every exit in which `handle_msg` signalled
stop (Quit or exhaustion), while on the channel-closure exit the running
flag is left unchanged (no transition to Stopped happens there). -/
theorem device_quit_exactly_on_quit_exit (s : SessionThread)
    (msgs : List SessionMsg) :
    handle_msg s .Quit = (false, { s with device := s.device.quit }) ∧
    (run s msgs).device.quit_calls
      = s.device.quit_calls + (if runExitsQuit s msgs then 1 else 0) ∧
    (runStops s msgs = true → (run s msgs).running = false) ∧
    (runStops s msgs = false → (run s msgs).running = s.running) :=
  ⟨rfl, run_quit_calls s msgs, run_stops_stopped s msgs,
    run_no_stop_running s msgs⟩

/-- Witness for C1's amended theorem at a concrete quitting run, a concrete
exhaustion-exiting run, and a concrete channel-closure run. -/
theorem device_quit_exactly_on_quit_exit_witness :
    (run (thread0 []) [SessionMsg.Quit]).device.quit_calls = 0 + 1 ∧
    (run (thread0 []) [SessionMsg.Quit]).running = false ∧
    (run (thread0 []) [SessionMsg.StartRenderLoop]).running = false ∧
    (run (thread0 []) ([] : List SessionMsg)).running = (thread0 []).running := by
  have h1 := device_quit_exactly_on_quit_exit (thread0 []) [SessionMsg.Quit]
  have h2 := device_quit_exactly_on_quit_exit (thread0 [])
    [SessionMsg.StartRenderLoop]
  have h3 := device_quit_exactly_on_quit_exit (thread0 []) ([] : List SessionMsg)
  exact ⟨by rw [h1.2.1]; decide, h1.2.2.1 (by decide), h2.2.2.1 (by decide),
    h3.2.2.2 (by decide)⟩

/-- Claim C2, counterexample: the StartRenderLoop handler forwards the
device's frame with its `sent_time` left at the device-supplied value 77,
although the clock at the moment the frame was ready to send read 100 — so
not every delivered frame has its delivery timestamp stamped when ready to
send. -/
theorem start_render_loop_frame_unstamped :
    (handle_msg (thread0 [frame0]) SessionMsg.StartRenderLoop).2.frame_log
      = [frame0] ∧
    frame0.sent_time = 77 ∧ (thread0 [frame0]).clock = 100 ∧ (77 : Nat) ≠ 100 := by
  decide

/-- Claim C2 (amended): only the frame forwarded by the RenderAnimationFrame
handler has its delivery timestamp stamped at the moment it is ready to send
(the time read directly after the wait succeeds, advancing the clock by that
one read); the StartRenderLoop handler forwards the device's frame
unmodified. -/
theorem frame_stamping_by_handler (s : SessionThread) (f : Frame)
    (rest : List Frame) (t : Nat) (h : s.device.frames = f :: rest) :
    (handle_msg s (SessionMsg.RenderAnimationFrame t)).2.frame_log
      = s.frame_log ++ [{ f with sent_time := s.clock }] ∧
    (handle_msg s (SessionMsg.RenderAnimationFrame t)).2.clock = s.clock + 1 ∧
    (handle_msg s SessionMsg.StartRenderLoop).2.frame_log
      = s.frame_log ++ [f] := by
  obtain ⟨h1, h2, -⟩ := handle_msg_raf_success s t f rest h
  refine ⟨h1, h2, ?_⟩
  simp [handle_msg, Device.wait_for_animation_frame, h]

/-- Witness for C2's amended theorem at a concrete one-frame device. -/
theorem frame_stamping_by_handler_witness :
    (handle_msg (thread0 [frame0]) (SessionMsg.RenderAnimationFrame 5)).2.frame_log
      = [{ frame0 with sent_time := 100 }] ∧
    (handle_msg (thread0 [frame0]) SessionMsg.StartRenderLoop).2.frame_log
      = [frame0] := by
  have h := frame_stamping_by_handler (thread0 [frame0]) frame0 [] 5 rfl
  exact ⟨by rw [h.1]; decide, by rw [h.2.2]; decide⟩

/-- Claim C3, counterexample: a message sequence containing one
RenderAnimationFrame message, placed after Quit, leaves the counter at 0, not
0 + 1: messages queued behind the stopping message are discarded, so the
counter tracks processed RenderAnimationFrame messages, not those contained
in the sequence. -/
theorem frame_counter_misses_discarded_raf :
    countRAF [SessionMsg.Quit, SessionMsg.RenderAnimationFrame 0] = 1 ∧
    (run (thread0 []) [SessionMsg.Quit, SessionMsg.RenderAnimationFrame 0]).frame_count
      = 0 := by
  decide

/-- Claim C3 (amended): the frame counter after a `run` equals its starting
value plus the number of RenderAnimationFrame messages actually processed
(those up to and including the message on which the loop stops); each
processed RenderAnimationFrame adds exactly 1 and no other message type
changes the counter, so it never decreases or skips. -/
theorem frame_counter_counts_processed_raf (s : SessionThread)
    (msgs : List SessionMsg) :
    (run s msgs).frame_count
      = s.frame_count + countRAF (runProcessed s msgs) ∧
    (∀ t, (handle_msg s (SessionMsg.RenderAnimationFrame t)).2.frame_count
        = s.frame_count + 1) ∧
    (∀ m, isRAF m = false → (handle_msg s m).2.frame_count = s.frame_count) := by
  refine ⟨run_frame_count s msgs, ?_, ?_⟩
  · intro t
    have h := handle_msg_frame_count s (.RenderAnimationFrame t)
    simpa [isRAF] using h
  · intro m hm
    have h := handle_msg_frame_count s m
    simpa [hm] using h

/-- Witness for C3's amended theorem at a concrete run and message. -/
theorem frame_counter_counts_processed_raf_witness :
    (run (thread0 []) [SessionMsg.RenderAnimationFrame 0]).frame_count
      = 0 + countRAF (runProcessed (thread0 []) [SessionMsg.RenderAnimationFrame 0]) ∧
    (handle_msg (thread0 []) SessionMsg.Quit).2.frame_count = 0 := by
  have h := frame_counter_counts_processed_raf (thread0 [])
    [SessionMsg.RenderAnimationFrame 0]
  exact ⟨h.1, h.2.2 SessionMsg.Quit (by decide)⟩

/-- Claim C4: processing one StartRenderLoop when the Device yields a frame
forwards exactly that one frame to the frame-delivery channel, invokes no
render step (the device state changes only by consuming the waited frame),
and leaves the thread Running (the whole state is unchanged apart from the
consumed frame and the forwarded one); when the Device is exhausted, the
thread transitions to Stopped and forwards nothing. -/
theorem start_render_loop_behavior (s : SessionThread) (f : Frame)
    (rest : List Frame) :
    (s.device.frames = f :: rest →
      run s [SessionMsg.StartRenderLoop]
        = { s with device := { s.device with frames := rest }
                   frame_log := s.frame_log ++ [f] }) ∧
    (s.device.frames = [] →
      run s [SessionMsg.StartRenderLoop] = { s with running := false }) := by
  constructor
  · intro h
    simp [run, handle_msg, Device.wait_for_animation_frame, h]
  · intro h
    simp [run, handle_msg, Device.wait_for_animation_frame, h]

/-- Witness for C4 at a one-frame device and at an exhausted device. -/
theorem start_render_loop_behavior_witness :
    run (thread0 [frame0]) [SessionMsg.StartRenderLoop]
      = { thread0 [] with frame_log := [frame0] } ∧
    run (thread0 []) [SessionMsg.StartRenderLoop]
      = { thread0 [] with running := false } := by
  have h1 := (start_render_loop_behavior (thread0 [frame0]) frame0 []).1 rfl
  have h2 := (start_render_loop_behavior (thread0 []) frame0 []).2 rfl
  refine ⟨by rw [h1]; try decide, by rw [h2]; try decide⟩

/-- Claim C5: for any sequence of SetSwapChain messages, the bound swap chain
afterwards is the one designated by the last message — the registry lookup of
its id, or none — independent of everything before it (last-write-wins). -/
theorem set_swap_chain_last_write_wins (s : SessionThread)
    (ids : List (Option SwapChainId)) (i : Option SwapChainId) :
    (run s ((ids ++ [i]).map SessionMsg.SetSwapChain)).swap_chain
      = i.bind fun k => swap_chains_get s.swap_chains k := by
  induction ids generalizing s with
  | nil => simp [run, handle_msg]
  | cons j ids ih =>
    simp only [List.cons_append, List.map_cons, run, handle_msg]
    exact ih _

/-- Claim C6: `run_one_frame` returns: with the session running, a first
bounded receive that times out makes it return at once with the state
unchanged; and whenever it returns, either the frame counter advanced, or the
session is no longer running, or the receive results it consumed ended with a
timeout, or the modelled finite stream of receive results ran out. -/
theorem run_one_frame_returns (s : SessionThread)
    (rest : List (Option SessionMsg)) (recvs : List (Option SessionMsg))
    (h : s.running = true) :
    run_one_frame s (none :: rest) = (s, rest) ∧
    ((run_one_frame s recvs).1.frame_count ≠ s.frame_count
      ∨ (run_one_frame s recvs).1.running = false
      ∨ (∃ pre, recvs = pre ++ none :: (run_one_frame s recvs).2)
      ∨ (run_one_frame s recvs).2 = []) := by
  refine ⟨run_one_frame_timeout s rest h, ?_⟩
  have hp := run_one_frame_loop_post s.frame_count s recvs
  simpa [run_one_frame] using hp

/-- Witness for C6 at a concrete running thread and timeout stream. -/
theorem run_one_frame_returns_witness :
    run_one_frame (thread0 []) [none] = (thread0 [], []) ∧
    ((run_one_frame (thread0 []) []).1.frame_count ≠ (thread0 []).frame_count
      ∨ (run_one_frame (thread0 []) []).1.running = false
      ∨ (∃ pre, ([] : List (Option SessionMsg))
            = pre ++ none :: (run_one_frame (thread0 []) []).2)
      ∨ (run_one_frame (thread0 []) []).2 = []) := by
  have h := run_one_frame_returns (thread0 []) [] [] rfl
  exact ⟨h.1, h.2⟩

/-- A spawn environment whose factory fails with a backend error. -/
def env_fail : SpawnEnv :=
  { ack_channel_ok := true, thread_channel_ok := true, ack_delivered := true,
    factory_result := .error (Error.BackendSpecific "no device") }

/-- A spawn environment where everything succeeds. -/
def env_ok : SpawnEnv :=
  { ack_channel_ok := true, thread_channel_ok := true, ack_delivered := true,
    factory_result := .ok (device0 []) }

/-- A spawn environment whose spawned closure drops the ack sender without
sending (a panic before the rendezvous). -/
def env_panic : SpawnEnv :=
  { ack_channel_ok := true, thread_channel_ok := true, ack_delivered := false,
    factory_result := .ok (device0 []) }

/-- A spawn environment where creating the ack channel itself fails. -/
def env_noack : SpawnEnv :=
  { ack_channel_ok := false, thread_channel_ok := true, ack_delivered := true,
    factory_result := .ok (device0 []) }

/-- Claim C7: `spawn` surfaces every construction-time failure synchronously
as a typed error: a failing factory's error is returned verbatim (when the
rendezvous works), a dropped acknowledgment channel or failed channel setup
yields a communication error, and Ok(Session) comes back only when the
factory and the SessionThread construction both succeeded, the session being
the one built from the constructed thread. -/
theorem spawn_error_propagation (env : SpawnEnv)
    (sc : List (SwapChainId × SwapChain)) (e : Error) :
    (env.ack_channel_ok = true → env.ack_delivered = true →
      env.factory_result = .error e → spawn env sc = .error e) ∧
    (env.ack_channel_ok = true → env.ack_delivered = false →
      spawn env sc = .error .CommunicationError) ∧
    (env.ack_channel_ok = false → spawn env sc = .error .CommunicationError) ∧
    (∀ sess, spawn env sc = .ok sess →
      ∃ d t, env.factory_result = .ok d ∧ env.ack_channel_ok = true
        ∧ env.ack_delivered = true
        ∧ SessionThread.new env.thread_channel_ok d sc = .ok t
        ∧ sess = t.new_session) := by
  obtain ⟨ack, tch, del, fr⟩ := env
  refine ⟨?_, ?_, ?_, ?_⟩
  · intro h1 h2 h3
    subst h1; subst h2; subst h3
    simp [spawn, Except.bind]
  · intro h1 h2
    subst h1; subst h2
    simp [spawn]
  · intro h1
    subst h1
    simp [spawn]
  · intro sess hs
    cases ack
    · simp [spawn] at hs
    · cases del
      · simp [spawn] at hs
      · cases fr with
        | error e2 => simp [spawn, Except.bind] at hs
        | ok d =>
          cases tch
          · simp [spawn, SessionThread.new, Except.bind] at hs
          · refine ⟨d, _, rfl, rfl, rfl, rfl, ?_⟩
            simp [spawn, SessionThread.new, Except.bind] at hs
            exact hs.symm

/-- A session handle with no framebuffer resolution (inline). -/
def session_inline : Session :=
  { floor_transform := none, views := 4, resolution := none,
    environment_blend_mode := .Opaque, initial_inputs := [] }

/-- A session handle with a framebuffer resolution. -/
def session_immersive : Session :=
  { floor_transform := none, views := 4, resolution := some (64, 64),
    environment_blend_mode := .Opaque, initial_inputs := [] }

/-- Witness for C7 at concrete spawn environments covering each branch. -/
theorem spawn_error_propagation_witness :
    spawn env_fail [] = .error (Error.BackendSpecific "no device") ∧
    spawn env_panic [] = .error Error.CommunicationError ∧
    spawn env_noack [] = .error Error.CommunicationError ∧
    (∃ d t, env_ok.factory_result = .ok d ∧ env_ok.ack_channel_ok = true
      ∧ env_ok.ack_delivered = true
      ∧ SessionThread.new env_ok.thread_channel_ok d [] = .ok t
      ∧ session_immersive = t.new_session) := by
  refine ⟨?_, ?_, ?_, ?_⟩
  · exact (spawn_error_propagation env_fail []
      (Error.BackendSpecific "no device")).1 rfl rfl rfl
  · exact (spawn_error_propagation env_panic []
      Error.CommunicationError).2.1 rfl rfl
  · exact (spawn_error_propagation env_noack []
      Error.CommunicationError).2.2.1 rfl
  · exact (spawn_error_propagation env_ok []
      Error.CommunicationError).2.2.2 session_immersive rfl

/-- Claim C8, counterexample: a thread constructed with `running = true` whose
channel closes before any message arrives ends its loop with `running` still
true — over that whole lifetime the flag transitions true→false zero times,
not exactly once. -/
theorem running_not_stopped_on_channel_closure :
    (thread0 []).running = true ∧ run (thread0 []) [] = thread0 [] :=
  ⟨rfl, rfl⟩

/-- Claim C8 (amended): `running` is initialized to true at construction and
transitions true→false at most once: `handle_msg` never writes it, and
neither `run` nor `run_one_frame` ever raises it from false back to true; on
a channel-closure exit it may never transition at all. -/
theorem running_flag_monotone :
    (∀ ok d sc t, SessionThread.new ok d sc = .ok t → t.running = true) ∧
    (∀ s m, (handle_msg s m).2.running = s.running) ∧
    (∀ s msgs, (run s msgs).running = true → s.running = true) ∧
    (∀ s recvs, (run_one_frame s recvs).1.running = true → s.running = true) := by
  refine ⟨?_, handle_msg_running, run_running_monotone, ?_⟩
  · intro ok d sc t h
    cases ok
    · simp [SessionThread.new] at h
    · simp only [SessionThread.new, if_true] at h
      injection h with h2
      rw [← h2]
  · intro s recvs
    exact run_one_frame_loop_running s.frame_count s recvs

/-- The state `SessionThread.new` builds for the trivial device. -/
def new_thread_ex : SessionThread :=
  { swap_chain := none, swap_chains := [], frame_count := 0, frame_log := [],
    running := true, device := (device0 []).set_quitter, clock := 0 }

/-- Witness for C8's amended theorem at concrete construction and loops. -/
theorem running_flag_monotone_witness :
    new_thread_ex.running = true ∧ (thread0 [frame0]).running = true ∧
    (thread0 []).running = true := by
  have h := running_flag_monotone
  refine ⟨h.1 true (device0 []) [] new_thread_ex rfl, ?_, ?_⟩
  · exact h.2.2.1 (thread0 [frame0]) [SessionMsg.StartRenderLoop] (by decide)
  · exact h.2.2.2 (thread0 []) [none] (by decide)

/-- Claim C9: `recommended_framebuffer_resolution` panics exactly when the
session has no cached framebuffer resolution (an inline session); when a
resolution is present it returns it — a pure read of the cached field, so the
Session is not modified. -/
theorem recommended_framebuffer_resolution_panic_iff (s : Session) :
    ((∃ m, s.recommended_framebuffer_resolution = .panics m)
      ↔ s.resolution = none) ∧
    (∀ r, s.resolution = some r →
      s.recommended_framebuffer_resolution = .ok r) := by
  cases h : s.resolution <;>
    simp [Session.recommended_framebuffer_resolution, h]

/-- Witness for C9 at an inline and an immersive session handle. -/
theorem recommended_framebuffer_resolution_panic_iff_witness :
    (∃ m, session_inline.recommended_framebuffer_resolution = .panics m) ∧
    session_immersive.recommended_framebuffer_resolution = .ok (64, 64) :=
  ⟨(recommended_framebuffer_resolution_panic_iff session_inline).1.mpr rfl,
   (recommended_framebuffer_resolution_panic_iff session_immersive).2 (64, 64) rfl⟩

/-- Claim C10: a SetSwapChain(Some id) whose id misses the registry leaves
the thread with no bound swap chain — indistinguishable from
SetSwapChain(None) — rather than retaining the previously bound one. -/
theorem set_swap_chain_missing_id_unbinds (s : SessionThread)
    (i : SwapChainId) (h : swap_chains_get s.swap_chains i = none) :
    (handle_msg s (SessionMsg.SetSwapChain (some i))).2.swap_chain = none ∧
    handle_msg s (SessionMsg.SetSwapChain (some i))
      = handle_msg s (SessionMsg.SetSwapChain none) := by
  constructor
  · simp [handle_msg, h]
  · simp [handle_msg, h]

/-- Witness for C10 at an empty registry. -/
theorem set_swap_chain_missing_id_unbinds_witness :
    (handle_msg (thread0 []) (SessionMsg.SetSwapChain (some 3))).2.swap_chain
      = none ∧
    handle_msg (thread0 []) (SessionMsg.SetSwapChain (some 3))
      = handle_msg (thread0 []) (SessionMsg.SetSwapChain none) :=
  set_swap_chain_missing_id_unbinds (thread0 []) 3 rfl

end WebXR
